import Mathlib

/-!
Verification development for the "El Chicho Shop" backend.

The repository contains three near-duplicate Express servers:
  - src/server.js            (Spanish vocabulary: productos, clientes, ventas)
  - src/unnamed/part_000     (Spanish vocabulary, earlier snapshot)
  - src/unnamed/part_001     (English vocabulary: products, clients, sales)

Each route handler is embedded as a pure Lean function over an explicit
database state (a list of rows per table).  JavaScript-specific value
coercions (truthiness of undefined / empty string / zero, the "x || d"
idiom, parseInt and parseFloat on absent fields) are made explicit through
small helper functions.  Request bodies are records of Option-typed fields,
where "none" is an absent (undefined) JSON field.

The bcrypt and jsonwebtoken libraries are modelled structurally: a hashed
password remembers the plaintext it was derived from together with the
salt, and a signed token remembers its payload, the secret it was signed
with, and its expiry instant; verification compares the secret and the
clock against the expiry, exactly as the libraries do.

Handlers that build SQL text dynamically (the part_001 product update and
the part_000 admin sales listing) are embedded down to the generated query
string and its parameter list, because those handlers interpolate the
running parameter counter without the "$" prefix; the database layer
rejects a statement whose "$n" placeholder count disagrees with the number
of supplied parameters, and the embedding models that rejection.
-/

namespace ElChicho

/-! ## JavaScript value coercions -/

/-- Truthiness of a string-or-undefined JavaScript value:
"undefined" and the empty string are falsy. -/
def jsTruthy : Option String → Bool
  | none => false
  | some s => s != ""

/-- Truthiness of a number-or-undefined JavaScript value:
"undefined" (NaN after parseFloat) and 0 are falsy. -/
def jsTruthyInt : Option Int → Bool
  | none => false
  | some n => n != 0

/-- Truthiness of a number-or-undefined value holding a Nat (ids). -/
def jsTruthyNat : Option Nat → Bool
  | none => false
  | some n => n != 0

/-- The JavaScript idiom "x || null" on a string field: undefined and the
empty string collapse to null. -/
def jsOrNullStr : Option String → Option String
  | none => none
  | some s => if s == "" then none else some s

/-- The JavaScript idiom "x || null" on a numeric id field: undefined and
0 collapse to null. -/
def jsOrNullNat : Option Nat → Option Nat
  | none => none
  | some n => if n == 0 then none else some n

/-- The JavaScript idiom "x || d" on a string field. -/
def jsOrStr (v : Option String) (d : String) : String :=
  match v with
  | none => d
  | some s => if s == "" then d else s

/-- The JavaScript idiom "parseFloat(x) || d" (also "parseInt(x) || d") on
a numeric field: an absent field parses to NaN, which is falsy, and a zero
value is falsy as well. -/
def jsOrInt (v : Option Int) (d : Int) : Int :=
  match v with
  | none => d
  | some n => if n == 0 then d else n

/-- The JavaScript idiom "x || d" on a boolean field. -/
def jsOrBool (v : Option Bool) (d : Bool) : Bool :=
  match v with
  | none => d
  | some b => if b then b else d

/-- The JavaScript idiom "parseInt(x) || null" (src/server.js product
update, stock parameter): an absent field gives NaN hence null, and an
explicit 0 is falsy hence also null. -/
def parseIntOrNull : Option Int → Option Int
  | none => none
  | some n => if n == 0 then none else some n

/-! ## bcrypt model -/

/-- A salted bcrypt hash.  The model keeps the plaintext and the salt so
that comparison can be stated; the routes never read these fields apart
from bcrypt.compare. -/
structure HashedPassword where
  plaintext : String
  salt : Nat
deriving DecidableEq, Repr

/-- bcrypt.hash(password, saltRounds) modelled with an explicit salt. -/
def bcryptHash (password : String) (salt : Nat) : HashedPassword :=
  ⟨password, salt⟩

/-- bcrypt.compare(password, hash): true exactly when the hash was derived
from this password. -/
def bcryptCompare (password : String) (h : HashedPassword) : Bool :=
  password == h.plaintext

/-! ## jsonwebtoken model -/

/-- The claims object embedded in a token by jwt.sign. -/
structure Claims where
  idUsuario : Nat
  usuario : String
  nombre : Option String
  rol : String
deriving DecidableEq, Repr

/-- A signed token: payload, the secret it was signed with, and the expiry
instant (seconds). -/
structure Jwt where
  payload : Claims
  signedWith : String
  exp : Nat
deriving DecidableEq, Repr

/-- jwt.sign(payload, secret, expiresIn): the expiry instant is the
issuing clock plus the configured lifetime. -/
def jwtSign (payload : Claims) (secret : String) (expiresAt : Nat) : Jwt :=
  ⟨payload, secret, expiresAt⟩

/-- jwt.verify(token, secret): fails when the signature does not match the
secret or the token has expired (valid only while now < exp); on success
yields the embedded claims. -/
def jwtVerify (secret : String) (now : Nat) (t : Jwt) : Except String Claims :=
  if t.signedWith != secret then .error "invalid signature"
  else if decide (t.exp ≤ now) then .error "jwt expired"
  else .ok t.payload

/-! ## Authentication middleware (src/server.js 86-107, part_001 65-86) -/

/-- Outcome of the authentication middleware: either a JSON rejection with
a status code, or admission with the verified claims stored on the request
(req.usuario / req.user) for the downstream handler. -/
inductive AuthResult where
  | reject (status : Nat) (mensaje : String)
  | grant (claims : Claims)
deriving DecidableEq, Repr

/-- JavaScript String.prototype.split on a single space, written as
structural recursion over the character list so that concrete instances
evaluate: "".split yields [""], adjacent separators yield empty pieces. -/
def splitSpaceAux : List Char → List Char → List String
  | [], acc => [String.mk acc.reverse]
  | c :: cs, acc =>
    if c = ' ' then String.mk acc.reverse :: splitSpaceAux cs []
    else splitSpaceAux cs (c :: acc)

/-- JavaScript splitting of s at each space. -/
def splitSpace (s : String) : List String :=
  splitSpaceAux s.toList []

/-- The token extraction cabeceraAuth && cabeceraAuth.split at spaces, index 1: the
second space-separated component of the Authorization header, if any. -/
def bearerToken (authHeader : Option String) : Option String :=
  authHeader.bind (fun s => (splitSpace s)[1]?)

/-- src/server.js autenticarToken (lines 86-107).  The jwt.verify call is
abstracted as a function from token strings to verification outcomes; the
claim theorems instantiate it with jwtVerify composed with a decoding of
token strings into Jwt values. -/
def autenticarToken (verify : String → Except String Claims)
    (authHeader : Option String) : AuthResult :=
  match bearerToken authHeader with
  | none => .reject 401 "Token no proporcionado"
  | some tk =>
    if tk == "" then .reject 401 "Token no proporcionado"
    else
      match verify tk with
      | .error _ => .reject 403 "Token inválido o expirado"
      | .ok usuario => .grant usuario

/-- src/unnamed/part_001 authenticateToken (lines 65-86): identical logic
and status codes; the response envelope uses the key "success" instead of
"exito" but the same message strings. -/
def authenticateToken (verify : String → Except String Claims)
    (authHeader : Option String) : AuthResult :=
  match bearerToken authHeader with
  | none => .reject 401 "Token no proporcionado"
  | some tk =>
    if tk == "" then .reject 401 "Token no proporcionado"
    else
      match verify tk with
      | .error _ => .reject 403 "Token inválido o expirado"
      | .ok user => .grant user

/-! ## Customers (src/server.js table clientes, part_001 table clients) -/

/-- A row of the clientes table (src/server.js). -/
structure Cliente where
  id : Nat
  usuario : String
  contrasena_hash : HashedPassword
  nombre : String
  correo : String
  telefono : Option String
  direccion : Option String
  ciudad : Option String
  pais : Option String
  activo : Bool
  rol : String
  fecha_creacion : Nat
  ultima_sesion : Option Nat
deriving DecidableEq, Repr

/-- The column list RETURNING id, usuario, nombre, correo, telefono,
direccion, ciudad, pais, rol, fecha_creacion of the registration INSERT:
the password hash is structurally absent. -/
structure ClientePublic where
  id : Nat
  usuario : String
  nombre : String
  correo : String
  telefono : Option String
  direccion : Option String
  ciudad : Option String
  pais : Option String
  rol : String
  fecha_creacion : Nat
deriving DecidableEq, Repr

def Cliente.public (c : Cliente) : ClientePublic :=
  ⟨c.id, c.usuario, c.nombre, c.correo, c.telefono, c.direccion, c.ciudad,
   c.pais, c.rol, c.fecha_creacion⟩

/-- The login response spread ... datosCliente after removing
contrasena_hash: every column except the hash. -/
structure ClienteSinHash where
  id : Nat
  usuario : String
  nombre : String
  correo : String
  telefono : Option String
  direccion : Option String
  ciudad : Option String
  pais : Option String
  activo : Bool
  rol : String
  fecha_creacion : Nat
  ultima_sesion : Option Nat
deriving DecidableEq, Repr

def Cliente.sinHash (c : Cliente) : ClienteSinHash :=
  ⟨c.id, c.usuario, c.nombre, c.correo, c.telefono, c.direccion, c.ciudad,
   c.pais, c.activo, c.rol, c.fecha_creacion, c.ultima_sesion⟩

/-- A row of the clients table (src/unnamed/part_001). -/
structure Client where
  id : Nat
  username : String
  password_hash : HashedPassword
  name : String
  email : String
  phone : Option String
  role : String
  created_at : Nat
deriving DecidableEq, Repr

/-- The column list RETURNING id, username, name, email, phone, role,
created_at (also the login response spread dropping password_hash). -/
structure ClientPublic where
  id : Nat
  username : String
  name : String
  email : String
  phone : Option String
  role : String
  created_at : Nat
deriving DecidableEq, Repr

def Client.public (c : Client) : ClientPublic :=
  ⟨c.id, c.username, c.name, c.email, c.phone, c.role, c.created_at⟩

/-! ## Customer registration -/

/-- Body of POST /api/clientes/registro (src/server.js). -/
structure RegistroBody where
  usuario : Option String
  contrasena : Option String
  nombre : Option String
  correo : Option String
  telefono : Option String
  direccion : Option String
  ciudad : Option String
  pais : Option String
deriving Repr

/-- Response of POST /api/clientes/registro. -/
structure RegistroResp where
  status : Nat
  exito : Bool
  mensaje : String
  datos : Option (Jwt × ClientePublic)
deriving DecidableEq, Repr

/-- src/server.js POST /api/clientes/registro (lines 863-925): validates
required fields, rejects with 400 when a row with the same usuario or
correo already exists (SELECT id FROM clientes WHERE usuario = $1 OR
correo = $2), otherwise inserts the row with a bcrypt hash and responds
201 with a token and the RETURNING columns. -/
def registroCliente (db : List Cliente) (b : RegistroBody)
    (newId salt now : Nat) (secret : String) : List Cliente × RegistroResp :=
  if !(jsTruthy b.usuario && jsTruthy b.contrasena &&
       jsTruthy b.nombre && jsTruthy b.correo) then
    (db, ⟨400, false, "Usuario, contraseña, nombre y correo son requeridos", none⟩)
  else
    let u := b.usuario.getD ""
    let pw := b.contrasena.getD ""
    let n := b.nombre.getD ""
    let e := b.correo.getD ""
    if db.any (fun c => c.usuario == u || c.correo == e) then
      (db, ⟨400, false, "El usuario o correo ya están registrados", none⟩)
    else
      let row : Cliente :=
        { id := newId, usuario := u, contrasena_hash := bcryptHash pw salt,
          nombre := n, correo := e,
          telefono := jsOrNullStr b.telefono,
          direccion := jsOrNullStr b.direccion,
          ciudad := jsOrNullStr b.ciudad,
          pais := jsOrNullStr b.pais,
          activo := true, rol := "cliente",
          fecha_creacion := now, ultima_sesion := none }
      let token := jwtSign ⟨newId, u, none, "cliente"⟩ secret (now + 86400)
      (db ++ [row],
       ⟨201, true, "Cliente registrado exitosamente", some (token, row.public)⟩)

/-- Body of POST /api/clients/register (src/unnamed/part_001). -/
structure RegisterBody where
  username : Option String
  password : Option String
  name : Option String
  email : Option String
  phone : Option String
deriving Repr

/-- Response of POST /api/clients/register. -/
structure RegisterResp where
  status : Nat
  success : Bool
  message : String
  data : Option ClientPublic
deriving DecidableEq, Repr

/-- src/unnamed/part_001 POST /api/clients/register (lines 287-339): same
shape as registroCliente; the success response carries the RETURNING
columns but no token. -/
def registerClient (db : List Client) (b : RegisterBody)
    (newId salt now : Nat) : List Client × RegisterResp :=
  if !(jsTruthy b.username && jsTruthy b.password &&
       jsTruthy b.name && jsTruthy b.email) then
    (db, ⟨400, false, "Campos requeridos: username, password, name, email", none⟩)
  else
    let u := b.username.getD ""
    let pw := b.password.getD ""
    let n := b.name.getD ""
    let e := b.email.getD ""
    if db.any (fun c => c.username == u || c.email == e) then
      (db, ⟨400, false, "El usuario o correo ya está registrado", none⟩)
    else
      let row : Client :=
        { id := newId, username := u, password_hash := bcryptHash pw salt,
          name := n, email := e, phone := jsOrNullStr b.phone,
          role := "client", created_at := now }
      (db ++ [row],
       ⟨201, true, "Cliente registrado exitosamente", some row.public⟩)

/-! ## Customer login -/

/-- Body of POST /api/clientes/login (src/server.js). -/
structure LoginBody where
  usuario : Option String
  contrasena : Option String
deriving Repr

/-- Response of POST /api/clientes/login. -/
structure LoginRespS where
  status : Nat
  exito : Bool
  mensaje : String
  datos : Option (Jwt × ClienteSinHash)
deriving DecidableEq, Repr

/-- src/server.js POST /api/clientes/login (lines 927-995): looks the
usuario up among active rows, answers 401 "Credenciales inválidas" both
when no row matches and when the hash comparison fails, updates
ultima_sesion on success and responds with a token and the row minus its
hash (the row as read, before the ultima_sesion update). -/
def clientesLogin (db : List Cliente) (b : LoginBody) (now : Nat)
    (secret : String) : List Cliente × LoginRespS :=
  if !(jsTruthy b.usuario && jsTruthy b.contrasena) then
    (db, ⟨400, false, "Usuario y contraseña requeridos", none⟩)
  else
    let u := b.usuario.getD ""
    let pw := b.contrasena.getD ""
    match db.find? (fun c => c.usuario == u && c.activo) with
    | none => (db, ⟨401, false, "Credenciales inválidas", none⟩)
    | some cliente =>
      if !(bcryptCompare pw cliente.contrasena_hash) then
        (db, ⟨401, false, "Credenciales inválidas", none⟩)
      else
        let db' := db.map (fun c =>
          if c.id == cliente.id then { c with ultima_sesion := some now } else c)
        let token := jwtSign
          ⟨cliente.id, cliente.usuario, some cliente.nombre, "cliente"⟩
          secret (now + 86400)
        (db', ⟨200, true, "Login exitoso", some (token, cliente.sinHash)⟩)

/-- Body of POST /api/clients/login (src/unnamed/part_001): the identifier
may be a username or an email. -/
structure ClientLoginBody where
  identifier : Option String
  password : Option String
deriving Repr

/-- Response of POST /api/clients/login. -/
structure LoginRespE where
  status : Nat
  success : Bool
  message : String
  data : Option (Jwt × ClientPublic)
deriving DecidableEq, Repr

/-- src/unnamed/part_001 POST /api/clients/login (lines 341-410): looks
the identifier up by username or email and, unlike the server.js variant,
answers 401 "Usuario no encontrado" when no row matches but 401
"Contraseña incorrecta" when the hash comparison fails; no last-login
update. -/
def clientsLogin (db : List Client) (b : ClientLoginBody) (now : Nat)
    (secret : String) : List Client × LoginRespE :=
  if !(jsTruthy b.identifier && jsTruthy b.password) then
    (db, ⟨400, false, "Usuario/email y contraseña requeridos", none⟩)
  else
    let idf := b.identifier.getD ""
    let pw := b.password.getD ""
    match db.find? (fun c => c.username == idf || c.email == idf) with
    | none => (db, ⟨401, false, "Usuario no encontrado", none⟩)
    | some client =>
      if !(bcryptCompare pw client.password_hash) then
        (db, ⟨401, false, "Contraseña incorrecta", none⟩)
      else
        let token := jwtSign
          ⟨client.id, client.username, some client.name, client.role⟩
          secret (now + 86400)
        (db, ⟨200, true, "Login exitoso", some (token, client.public)⟩)

/-! ## Catalog data model -/

/-- JavaScript String.prototype.toLowerCase restricted to the ASCII range
used by the status strings, written over the character list so that
concrete instances evaluate. -/
def jsToLower (s : String) : String :=
  String.mk (s.toList.map Char.toLower)

/-- A row of the productos table (src/server.js and src/unnamed/part_000). -/
structure Producto where
  id : Nat
  nombre : String
  categoria_id : Option Nat
  subcategoria_id : Option Nat
  precio : Int
  invertido : Int
  descripcion : Option String
  imagen_base64 : Option String
  stock : Int
  estado : String
  destacado : Bool
  fecha_creacion : Nat
  fecha_actualizacion : Nat
deriving DecidableEq, Repr

/-- A row of the products table (src/unnamed/part_001). -/
structure Product where
  id : Nat
  name : String
  category_id : Option Nat
  subcategory_id : Option Nat
  price : Int
  invertido : Int
  description : Option String
  image_base64 : Option String
  stock : Int
  status : String
  featured : Bool
  created_at : Nat
  updated_at : Nat
deriving DecidableEq, Repr

structure Categoria where
  id : Nat
  nombre : String
deriving DecidableEq, Repr

structure Subcategoria where
  id : Nat
  categoria_id : Nat
  nombre : String
deriving DecidableEq, Repr

structure Category where
  id : Nat
  name : String
deriving DecidableEq, Repr

structure Subcategory where
  id : Nat
  category_id : Nat
  name : String
deriving DecidableEq, Repr

/-- The row shape produced by the get-by-id queries: the product columns
plus the LEFT JOINed category and subcategory display names. -/
structure ProductoJoined where
  producto : Producto
  nombre_categoria : Option String
  nombre_subcategoria : Option String
deriving DecidableEq, Repr

structure ProductJoined where
  product : Product
  category_name : Option String
  subcategory_name : Option String
deriving DecidableEq, Repr

/-- LEFT JOIN categorias c ON p.categoria_id = c.id and the analogous
subcategory join. -/
def joinNombres (cats : List Categoria) (subs : List Subcategoria)
    (p : Producto) : ProductoJoined :=
  ⟨p,
   p.categoria_id.bind (fun cid => (cats.find? (fun c => c.id == cid)).map (·.nombre)),
   p.subcategoria_id.bind (fun sid => (subs.find? (fun s => s.id == sid)).map (·.nombre))⟩

def joinNames (cats : List Category) (subs : List Subcategory)
    (p : Product) : ProductJoined :=
  ⟨p,
   p.category_id.bind (fun cid => (cats.find? (fun c => c.id == cid)).map (·.name)),
   p.subcategory_id.bind (fun sid => (subs.find? (fun s => s.id == sid)).map (·.name))⟩

/-! ## Product get-by-id endpoints -/

/-- Response of the get-by-id endpoints (Spanish variants). -/
structure GetProductoResp where
  status : Nat
  exito : Bool
  mensaje : Option String
  datos : Option ProductoJoined
deriving DecidableEq, Repr

/-- Response of the get-by-id endpoint (English variant). -/
structure GetProductResp where
  status : Nat
  success : Bool
  message : Option String
  data : Option ProductJoined
deriving DecidableEq, Repr

/-- src/server.js GET /api/productos/:id (lines 352-386), the public
endpoint: WHERE p.id = $1 with no condition on estado, so inactive
products are returned as well; 404 only when no row has the id. -/
def productosGetById_serverjs (db : List Producto) (cats : List Categoria)
    (subs : List Subcategoria) (pid : Nat) : GetProductoResp :=
  match db.find? (fun p => p.id == pid) with
  | none => ⟨404, false, some "Producto no encontrado", none⟩
  | some p => ⟨200, true, none, some (joinNombres cats subs p)⟩

/-- src/server.js GET /api/admin/productos/:id (lines 486-520), the admin
endpoint: the same query as the public one, no condition on estado. -/
def adminProductosGetById_serverjs (db : List Producto) (cats : List Categoria)
    (subs : List Subcategoria) (pid : Nat) : GetProductoResp :=
  match db.find? (fun p => p.id == pid) with
  | none => ⟨404, false, some "Producto no encontrado", none⟩
  | some p => ⟨200, true, none, some (joinNombres cats subs p)⟩

/-- src/unnamed/part_000 GET /api/productos/:id (lines 475-505): WHERE
p.id = $1 AND LOWER(p.estado) = the lowercase active literal, so a product
that exists but is not active yields 404. -/
def productosGetById_part000 (db : List Producto) (cats : List Categoria)
    (subs : List Subcategoria) (pid : Nat) : GetProductoResp :=
  match db.find? (fun p => p.id == pid && jsToLower p.estado == "activo") with
  | none => ⟨404, false, some "Producto no encontrado", none⟩
  | some p => ⟨200, true, none, some (joinNombres cats subs p)⟩

/-- src/unnamed/part_001 GET /api/products/:id (lines 494-524): WHERE
p.id = $1 AND LOWER(p.status) = the lowercase active literal. -/
def productsGetById_part001 (db : List Product) (cats : List Category)
    (subs : List Subcategory) (pid : Nat) : GetProductResp :=
  match db.find? (fun p => p.id == pid && jsToLower p.status == "activo") with
  | none => ⟨404, false, some "Producto no encontrado", none⟩
  | some p => ⟨200, true, none, some (joinNames cats subs p)⟩

/-! ## Product create and update -/

/-- Body of the admin product create/update endpoints (src/server.js
destructures the same ten fields in both). -/
structure ProductBodyS where
  nombre : Option String
  categoria_id : Option Nat
  subcategoria_id : Option Nat
  precio : Option Int
  invertido : Option Int
  descripcion : Option String
  imagen_base64 : Option String
  stock : Option Int
  estado : Option String
  destacado : Option Bool
deriving Repr

/-- Body of the part_001 admin product create/update endpoints. -/
structure ProductBodyE where
  name : Option String
  category_id : Option Nat
  subcategory_id : Option Nat
  price : Option Int
  invertido : Option Int
  description : Option String
  image_base64 : Option String
  stock : Option Int
  status : Option String
  featured : Option Bool
deriving Repr

/-- Response of the server.js admin product create and update endpoints. -/
structure CreateRespS where
  status : Nat
  exito : Bool
  mensaje : String
  datos : Option Producto
deriving DecidableEq, Repr

/-- src/server.js POST /api/admin/productos (lines 522-579): nombre and
precio are mandatory (JavaScript truthiness, so a price of zero is also
rejected); the remaining columns default through the || idioms of the
INSERT parameter list. -/
def adminProductosPost_serverjs (db : List Producto) (b : ProductBodyS)
    (newId now : Nat) : List Producto × CreateRespS :=
  if !(jsTruthy b.nombre && jsTruthyInt b.precio) then
    (db, ⟨400, false, "Nombre y precio son requeridos", none⟩)
  else
    let row : Producto :=
      { id := newId,
        nombre := b.nombre.getD "",
        categoria_id := jsOrNullNat b.categoria_id,
        subcategoria_id := jsOrNullNat b.subcategoria_id,
        precio := b.precio.getD 0,
        invertido := jsOrInt b.invertido 0,
        descripcion := some (jsOrStr b.descripcion ""),
        imagen_base64 := jsOrNullStr b.imagen_base64,
        stock := jsOrInt b.stock 0,
        estado := jsOrStr b.estado "ACTIVO",
        destacado := jsOrBool b.destacado false,
        fecha_creacion := now,
        fecha_actualizacion := now }
    (db ++ [row], ⟨201, true, "Producto creado exitosamente", some row⟩)

/-- The status normalisation of the part_001 create and update endpoints:
a body status whose lowercase form is the Spanish or English inactive
literal becomes "inactive"; every other value, including an absent status
field, becomes "ACTIVO". -/
def normalizeStatus : Option String → String
  | none => "ACTIVO"
  | some s =>
    if jsToLower s == "inactivo" || jsToLower s == "inactive" then "inactive"
    else "ACTIVO"

/-- Response of the part_001 admin product create endpoint. -/
structure CreateRespE where
  status : Nat
  success : Bool
  message : Option String
  data : Option Product
deriving DecidableEq, Repr

/-- src/unnamed/part_001 POST /api/admin/products (lines 1084-1144): name,
category_id AND price are mandatory; category_id is inserted as given, the
other columns default through the || idioms, and status goes through
normalizeStatus. -/
def adminProductsPost_part001 (db : List Product) (b : ProductBodyE)
    (newId now : Nat) : List Product × CreateRespE :=
  if !(jsTruthy b.name && jsTruthyNat b.category_id && jsTruthyInt b.price) then
    (db, ⟨400, false, some "Campos requeridos: name, category_id, price", none⟩)
  else
    let row : Product :=
      { id := newId,
        name := b.name.getD "",
        category_id := b.category_id,
        subcategory_id := jsOrNullNat b.subcategory_id,
        price := b.price.getD 0,
        invertido := jsOrInt b.invertido 0,
        description := jsOrNullStr b.description,
        image_base64 := jsOrNullStr b.image_base64,
        stock := jsOrInt b.stock 0,
        status := normalizeStatus b.status,
        featured := jsOrBool b.featured false,
        created_at := now,
        updated_at := now }
    (db ++ [row], ⟨201, true, none, some row⟩)

/-- COALESCE(param, column) for a nullable column. -/
def coalesceOpt (param old : Option α) : Option α :=
  match param with
  | some v => some v
  | none => old

/-- The row transformation of the src/server.js UPDATE productos SET ...
statement (lines 596-620): each column is COALESCE(param, column) where
the parameters go through the coercions of the params array — precio
through the ternary (falsy gives null), invertido only null when absent,
stock through parseInt(stock) || null (so an explicit zero becomes null),
and imagen_base64 is only assigned when truthy. -/
def serverjsUpdateRow (b : ProductBodyS) (now : Nat) (p : Producto) : Producto :=
  { p with
    nombre := b.nombre.getD p.nombre,
    categoria_id := coalesceOpt b.categoria_id p.categoria_id,
    subcategoria_id := coalesceOpt b.subcategoria_id p.subcategoria_id,
    precio := (parseIntOrNull b.precio).getD p.precio,
    invertido := b.invertido.getD p.invertido,
    descripcion := coalesceOpt b.descripcion p.descripcion,
    stock := (parseIntOrNull b.stock).getD p.stock,
    estado := b.estado.getD p.estado,
    destacado := b.destacado.getD p.destacado,
    imagen_base64 := if jsTruthy b.imagen_base64 then b.imagen_base64 else p.imagen_base64,
    fecha_actualizacion := now }

/-- The table after the server.js UPDATE statement ran: every row whose id
matches goes through serverjsUpdateRow, the rest are untouched. -/
def serverjsUpdatedTable (db : List Producto) (pid : Nat) (b : ProductBodyS)
    (now : Nat) : List Producto :=
  db.map (fun p => if p.id == pid then serverjsUpdateRow b now p else p)

/-- src/server.js PUT /api/admin/productos/:id (lines 581-655): the UPDATE
touches every row whose id matches (ids are unique in practice), RETURNING
the updated row; an empty RETURNING set, i.e. no row with the id, yields
404. -/
def adminProductosPut_serverjs (db : List Producto) (pid : Nat)
    (b : ProductBodyS) (now : Nat) : List Producto × CreateRespS :=
  if db.any (fun p => p.id == pid) then
    match (serverjsUpdatedTable db pid b now).find? (fun p => p.id == pid) with
    | some row => (serverjsUpdatedTable db pid b now,
                   ⟨200, true, "Producto actualizado exitosamente", some row⟩)
    | none => (serverjsUpdatedTable db pid b now,
               ⟨404, false, "Producto no encontrado", none⟩)
  else
    (db, ⟨404, false, "Producto no encontrado", none⟩)

/-! ## Sales -/

/-- A line item of a cart, as read back by the part_001 dashboard
aggregations (item.id, item.name, item.quantity). -/
structure CartItem where
  id : Nat
  name : String
  quantity : Int
deriving DecidableEq, Repr

/-- The cart field of a sale request: a JSON array of line items, or a
value of some other shape (Array.isArray false). -/
inductive CartData where
  | arr (items : List CartItem)
  | notArr
deriving DecidableEq, Repr

/-- A row of the ventas table (src/server.js and part_000); the columns
the INSERT does not name default to null. -/
structure Venta where
  id : Nat
  numero_orden : String
  cliente_id : Option Nat
  datos_carrito : List CartItem
  total : Int
  nombre_cliente : String
  correo_cliente : String
  telefono_cliente : String
  direccion_envio : Option String
  estado : String
  metodo_pago : Option String
  notas : Option String
  fecha_creacion : Nat
  fecha_actualizacion : Nat
deriving DecidableEq, Repr

/-- A row of the sales table (src/unnamed/part_001). -/
structure Sale where
  id : Nat
  order_number : String
  cart_data : List CartItem
  total : Int
  client_name : String
  client_email : String
  client_phone : String
  status : String
  created_at : Nat
deriving DecidableEq, Repr

/-- Body of POST /api/ventas (src/server.js and part_000). -/
structure VentaBody where
  datos_carrito : Option CartData
  total : Option Int
  nombre_cliente : Option String
  correo_cliente : Option String
  telefono_cliente : Option String
deriving Repr

/-- Body of POST /api/sales (src/unnamed/part_001). -/
structure SaleBody where
  cart_data : Option CartData
  total : Option Int
  client_name : Option String
  client_email : Option String
  client_phone : Option String
deriving Repr

/-- Response of the sale creation endpoints; datos carries
(idVenta, numeroOrden, total), respectively (saleId, orderNumber, total). -/
structure VentaResp where
  status : Nat
  exito : Bool
  mensaje : String
  datos : Option (Nat × String × Int)
deriving DecidableEq, Repr

/-- The generated order number ORD-(Date.now())-(random suffix below
1000). -/
def mkNumeroOrden (nowMs rand : Nat) : String :=
  "ORD-" ++ toString nowMs ++ "-" ++ toString rand

/-- POST /api/ventas, identical in src/server.js (lines 1238-1295) and
src/unnamed/part_000 (lines 537-594): rejects a missing cart, a non-array
cart or an empty cart with 400 "Carrito vacío"; rejects a missing, zero or
negative total with 400 "Total inválido"; otherwise inserts exactly one
row with status pendiente and responds 201 with the new id, the order
number and the echoed total. -/
def ventasPost (db : List Venta) (b : VentaBody)
    (newId nowMs rand now : Nat) : List Venta × VentaResp :=
  match b.datos_carrito with
  | some (.arr items) =>
    if items.isEmpty then
      (db, ⟨400, false, "Carrito vacío", none⟩)
    else
      match b.total with
      | some t =>
        if t ≤ 0 then (db, ⟨400, false, "Total inválido", none⟩)
        else
          let row : Venta :=
            { id := newId,
              numero_orden := mkNumeroOrden nowMs rand,
              cliente_id := none,
              datos_carrito := items,
              total := t,
              nombre_cliente := jsOrStr b.nombre_cliente "Cliente",
              correo_cliente := jsOrStr b.correo_cliente "",
              telefono_cliente := jsOrStr b.telefono_cliente "",
              direccion_envio := none,
              estado := "pendiente",
              metodo_pago := none,
              notas := none,
              fecha_creacion := now,
              fecha_actualizacion := now }
          (db ++ [row], ⟨201, true, "Venta registrada",
                         some (newId, row.numero_orden, t)⟩)
      | none => (db, ⟨400, false, "Total inválido", none⟩)
  | _ => (db, ⟨400, false, "Carrito vacío", none⟩)

/-- src/unnamed/part_001 POST /api/sales (lines 667-724): the same logic
with English column names and status pending. -/
def salesPost_part001 (db : List Sale) (b : SaleBody)
    (newId nowMs rand now : Nat) : List Sale × VentaResp :=
  match b.cart_data with
  | some (.arr items) =>
    if items.isEmpty then
      (db, ⟨400, false, "Carrito vacío", none⟩)
    else
      match b.total with
      | some t =>
        if t ≤ 0 then (db, ⟨400, false, "Total inválido", none⟩)
        else
          let row : Sale :=
            { id := newId,
              order_number := mkNumeroOrden nowMs rand,
              cart_data := items,
              total := t,
              client_name := jsOrStr b.client_name "Cliente",
              client_email := jsOrStr b.client_email "",
              client_phone := jsOrStr b.client_phone "",
              status := "pending",
              created_at := now }
          (db ++ [row], ⟨201, true, "Venta registrada",
                         some (newId, row.order_number, t)⟩)
      | none => (db, ⟨400, false, "Total inválido", none⟩)
  | _ => (db, ⟨400, false, "Carrito vacío", none⟩)

/-! ## Dynamically built SQL

Two handlers assemble their SQL text from a parameter counter but
interpolate the counter without the dollar prefix, so the statement text
contains bare integer literals where placeholders were intended while the
parameter values are still supplied to the driver.  The embedding builds
the exact statement text and parameter list; the database layer is
modelled by an executor that rejects a statement whose placeholder count
differs from the number of supplied parameters, which is how PostgreSQL
answers such a Parse/Bind sequence. -/

/-- A JavaScript value handed to pool.query as a parameter. -/
inductive JsVal where
  | str (s : String)
  | num (n : Int)
  | bool (b : Bool)
deriving DecidableEq, Repr

/-- Array.prototype.join with the comma-space separator. -/
def joinComma : List String → String
  | [] => ""
  | [s] => s
  | s :: rest => s ++ ", " ++ joinComma rest

/-- Number of dollar signs, hence of placeholder references, in a
statement text (none of the dynamically built fragments contains a
literal dollar). -/
def countDollars (s : String) : Nat :=
  s.toList.count '$'

/-- The model executor: accepts a statement whose placeholder count
matches the supplied parameters and yields the given result, rejects any
other statement the way the driver surfaces a PostgreSQL Parse/Bind
error. -/
def pgExecModel {α : Type} (ok : α) : String → List JsVal → Except String α :=
  fun q vs =>
    if countDollars q == vs.length then .ok ok
    else .error "bind message supplies parameters the statement does not use"

/-- The allowedFields object of src/unnamed/part_001 PUT
/api/admin/products/:id (lines 1166-1183) filtered by value !== undefined,
in property order.  The status property is a computed ternary and
therefore always defined: an omitted body status still contributes the
entry status = ACTIVO. -/
def updateEntries_part001 (b : ProductBodyE) : List (String × JsVal) :=
  (match b.name with | some v => [("name", JsVal.str v)] | none => []) ++
  (match b.category_id with | some v => [("category_id", JsVal.num v)] | none => []) ++
  (match b.subcategory_id with | some v => [("subcategory_id", JsVal.num v)] | none => []) ++
  (match b.price with | some v => [("price", JsVal.num v)] | none => []) ++
  (match b.invertido with | some v => [("invertido", JsVal.num v)] | none => []) ++
  (match b.description with | some v => [("description", JsVal.str v)] | none => []) ++
  (match b.image_base64 with | some v => [("image_base64", JsVal.str v)] | none => []) ++
  (match b.stock with | some v => [("stock", JsVal.num v)] | none => []) ++
  (match b.featured with | some v => [("featured", JsVal.bool v)] | none => []) ++
  [("status", JsVal.str (normalizeStatus b.status))]

/-- The SET clause fragments: each entry is interpolated as
field = paramCount with the counter starting at 1 — the source template
lacks the dollar prefix, so the counter value appears as a bare integer
literal in the statement text. -/
def setClauses : List (String × JsVal) → Nat → List String
  | [], _ => []
  | (f, _) :: rest, i => (f ++ " = " ++ toString i) :: setClauses rest (i + 1)

/-- The statement text and parameter array built by the part_001 product
update handler (whitespace of the multi-line template normalised to
single spaces). -/
def updateQuery_part001 (b : ProductBodyE) (idStr : String) : String × List JsVal :=
  let entries := updateEntries_part001 b
  let fields := setClauses entries 1 ++ ["updated_at = CURRENT_TIMESTAMP"]
  let values := entries.map (·.2) ++ [JsVal.str idStr]
  let paramCount := entries.length + 1
  ("UPDATE products SET " ++ joinComma fields ++
     " WHERE id = " ++ toString paramCount ++ " RETURNING *",
   values)

/-- Response of the part_001 product update endpoint. -/
structure PutRespE where
  status : Nat
  success : Bool
  message : Option String
  error : Option String
  data : Option Product
deriving DecidableEq, Repr

/-- src/unnamed/part_001 PUT /api/admin/products/:id (lines 1146-1235):
builds the statement through updateQuery_part001 and hands it to the
executor together with the parameter values; a driver error is caught and
answered with 500, an empty RETURNING set with 404.  The executor yields
the new table contents and the RETURNING rows. -/
def adminProductsPut_part001
    (exec : String → List JsVal → Except String (List Product × List Product))
    (db : List Product) (idStr : String) (b : ProductBodyE) :
    List Product × PutRespE :=
  let entries := updateEntries_part001 b
  if entries.isEmpty then
    (db, ⟨400, false, some "No hay campos para actualizar", none, none⟩)
  else
    let qv := updateQuery_part001 b idStr
    match exec qv.1 qv.2 with
    | .error e => (db, ⟨500, false, some "Error actualizando producto", some e, none⟩)
    | .ok (db', rows) =>
      match rows with
      | [] => (db', ⟨404, false, some "Producto no encontrado", none, none⟩)
      | r :: _ => (db', ⟨200, true, none, none, some r⟩)

/-- The statement text and parameter array built by src/unnamed/part_000
GET /api/admin/ventas (lines 1151-1182): when a status filter other than
the all sentinel is present, the filter clause interpolates
parametros.length without the dollar prefix, giving the literal fragment
AND estado = 1, while the LIMIT clause is correctly written with the
dollar. -/
def adminVentasQuery_part000 (estado : Option String) (limite : Int) :
    String × List JsVal :=
  if jsTruthy estado && (estado.getD "" != "all") then
    let parametros := [JsVal.str (estado.getD "")]
    let consulta := "SELECT * FROM ventas WHERE 1=1" ++
      " AND estado = " ++ toString parametros.length
    (consulta ++ " ORDER BY fecha_creacion DESC LIMIT $" ++
       toString (parametros.length + 1),
     parametros ++ [JsVal.num limite])
  else
    ("SELECT * FROM ventas WHERE 1=1 ORDER BY fecha_creacion DESC LIMIT $1",
     [JsVal.num limite])

/-- Response of the admin sales listings. -/
structure VentasListResp where
  status : Nat
  exito : Bool
  mensaje : Option String
  error : Option String
  datos : Option (List Venta)
  cantidad : Option Nat
deriving DecidableEq, Repr

/-- src/unnamed/part_000 GET /api/admin/ventas (lines 1151-1182): builds
the statement through adminVentasQuery_part000; a driver error is caught
and answered with 500. -/
def adminVentasGet_part000
    (exec : String → List JsVal → Except String (List Venta))
    (estado : Option String) (limite : Int) : VentasListResp :=
  let qv := adminVentasQuery_part000 estado limite
  match exec qv.1 qv.2 with
  | .error e => ⟨500, false, some "Error obteniendo ventas", some e, none, none⟩
  | .ok rows => ⟨200, true, none, none, some rows, some rows.length⟩

/-- Stable insertion into a list sorted descending by the key. -/
def insertDescBy (key : α → Int) (x : α) : List α → List α
  | [] => [x]
  | y :: ys => if key y < key x then x :: y :: ys else y :: insertDescBy key x ys

/-- Stable descending sort by the key (ORDER BY key DESC). -/
def sortDescBy (key : α → Int) : List α → List α
  | [] => []
  | x :: xs => insertDescBy key x (sortDescBy key xs)

/-- Response of the part_001 admin sales listing. -/
structure SalesListResp where
  status : Nat
  success : Bool
  data : List Sale
  count : Nat
deriving DecidableEq, Repr

/-- src/unnamed/part_001 GET /api/admin/sales (lines 1417-1440): SELECT *
FROM sales ORDER BY created_at DESC LIMIT $1.  The handler destructures
only limit from the query string; no status filter is read or applied. -/
def adminSalesGet_part001 (db : List Sale) (limit : Nat) : SalesListResp :=
  let rows := (sortDescBy (fun s => Int.ofNat s.created_at) db).take limit
  ⟨200, true, rows, rows.length⟩

/-! ## Dashboard endpoints and database failure handling -/

/-- A row of the server.js top-products aggregate query, also the shape
accumulated by the part_001 in-process aggregation. -/
structure TopRow where
  id : Nat
  name : String
  quantity : Int
deriving DecidableEq, Repr

/-- A generic response envelope: status, the success flag (exito in the
Spanish variants, success in the English one), an optional message, an
optional echoed error string, and the payload. -/
structure EnvResp (α : Type) where
  status : Nat
  ok : Bool
  mensaje : Option String
  error : Option String
  datos : Option α
deriving DecidableEq, Repr

/-- src/server.js GET /api/productos (lines 293-350) viewed from its
database call: the filters are applied inside the SQL, so the handler
either relays the returned rows with 200 or, in the catch block, answers
500 with the message and the raw error string. -/
def productosGet_serverjs (dbResult : Except String (List ProductoJoined)) :
    EnvResp (List ProductoJoined) :=
  match dbResult with
  | .ok rows => ⟨200, true, none, none, some rows⟩
  | .error e => ⟨500, false, some "Error obteniendo productos", some e, none⟩

/-- src/server.js GET /api/admin/dashboard/top-products (lines 773-801):
the catch block does NOT answer 500 — it responds 200 with success true
and an empty data array, converting a database failure into a success
response. -/
def topProducts_serverjs (dbResult : Except String (List TopRow)) :
    EnvResp (List TopRow) :=
  match dbResult with
  | .ok rows => ⟨200, true, none, none, some rows⟩
  | .error _ => ⟨200, true, none, none, some []⟩

/-- The in-process accumulation step of the part_001 top-products handler:
productos[item.id] keyed by product id, quantities summed. -/
def addCartItem (acc : List TopRow) (it : CartItem) : List TopRow :=
  if acc.any (fun r => r.id == it.id) then
    acc.map (fun r =>
      if r.id == it.id then { r with quantity := r.quantity + it.quantity } else r)
  else acc ++ [⟨it.id, it.name, it.quantity⟩]

/-- The part_001 top-products aggregation over the stored carts: iterate
every line item of every sale, sort by quantity descending, keep ten.
(JavaScript enumerates the integer-like keys of the accumulator object in
ascending key order before the sort; the embedding keeps first-seen order,
which only permutes ties of the subsequent quantity sort.) -/
def topAggregate (carts : List (List CartItem)) : List TopRow :=
  (sortDescBy (·.quantity)
      (carts.foldl (fun acc cart => cart.foldl addCartItem acc) [])).take 10

/-- src/unnamed/part_001 GET /api/admin/dashboard/top-products (lines
1328-1361): SELECT cart_data FROM sales, aggregate in process; the catch
block answers 500 with the message and the raw error string. -/
def topProducts_part001 (dbResult : Except String (List (List CartItem))) :
    EnvResp (List TopRow) :=
  match dbResult with
  | .ok carts => ⟨200, true, none, none, some (topAggregate carts)⟩
  | .error e => ⟨500, false, some "Error obteniendo top productos", some e, none⟩

end ElChicho

namespace ElChicho

/-! # Theorems -/

/-- Claim C1: for every request to a token-protected route, the middleware
rejects a request with no bearer token with status 401, rejects a token
that fails signature or expiry verification with status 403, and for a
token that verifies and has not expired it admits the request, passing the
embedded claims to the downstream handler.  Both the server.js and the
part_001 middleware satisfy this. -/
theorem claim_C1 (interp : String → Jwt) (secret : String) (now : Nat)
    (hdr : Option String) :
    ((bearerToken hdr = none ∨ bearerToken hdr = some "") →
      autenticarToken (fun s => jwtVerify secret now (interp s)) hdr
        = .reject 401 "Token no proporcionado" ∧
      authenticateToken (fun s => jwtVerify secret now (interp s)) hdr
        = .reject 401 "Token no proporcionado") ∧
    (∀ tk, bearerToken hdr = some tk → tk ≠ "" →
      ((interp tk).signedWith ≠ secret ∨ (interp tk).exp ≤ now) →
      autenticarToken (fun s => jwtVerify secret now (interp s)) hdr
        = .reject 403 "Token inválido o expirado" ∧
      authenticateToken (fun s => jwtVerify secret now (interp s)) hdr
        = .reject 403 "Token inválido o expirado") ∧
    (∀ tk, bearerToken hdr = some tk → tk ≠ "" →
      (interp tk).signedWith = secret → now < (interp tk).exp →
      autenticarToken (fun s => jwtVerify secret now (interp s)) hdr
        = .grant (interp tk).payload ∧
      authenticateToken (fun s => jwtVerify secret now (interp s)) hdr
        = .grant (interp tk).payload) := by
  refine ⟨?_, ?_, ?_⟩
  · rintro (h | h) <;>
      simp [autenticarToken, authenticateToken, h]
  · intro tk htk hne hbad
    have : jwtVerify secret now (interp tk) = .error "invalid signature" ∨
        jwtVerify secret now (interp tk) = .error "jwt expired" := by
      rcases hbad with hb | hb
      · left; simp [jwtVerify, hb]
      · by_cases hsig : (interp tk).signedWith = secret
        · right; simp [jwtVerify, hsig, hb]
        · left; simp [jwtVerify, hsig]
    rcases this with h | h <;>
      simp [autenticarToken, authenticateToken, htk, hne, h]
  · intro tk htk hne hsig hexp
    have : jwtVerify secret now (interp tk) = .ok (interp tk).payload := by
      simp [jwtVerify, hsig, Nat.not_le.mpr hexp]
    simp [autenticarToken, authenticateToken, htk, hne, this]

/-- Witness for C1: a concrete token admitted before expiry, rejected with
403 after expiry (and with a wrong secret), and a concrete request with no
token rejected with 401. -/
theorem claim_C1_witness :
    (autenticarToken
        (fun s => jwtVerify "sec" 5 ((fun _ => jwtSign ⟨1, "ana", none, "admin"⟩ "sec" 10) s))
        (some "Bearer tok") = .grant ⟨1, "ana", none, "admin"⟩) ∧
    (autenticarToken
        (fun s => jwtVerify "sec" 10 ((fun _ => jwtSign ⟨1, "ana", none, "admin"⟩ "sec" 10) s))
        (some "Bearer tok") = .reject 403 "Token inválido o expirado") ∧
    (authenticateToken
        (fun s => jwtVerify "sec" 5 ((fun _ => jwtSign ⟨1, "ana", none, "admin"⟩ "other" 10) s))
        (some "Bearer tok") = .reject 403 "Token inválido o expirado") ∧
    (autenticarToken
        (fun s => jwtVerify "sec" 5 ((fun _ => jwtSign ⟨1, "ana", none, "admin"⟩ "sec" 10) s))
        none = .reject 401 "Token no proporcionado") := by
  refine ⟨?_, ?_, ?_, ?_⟩
  · exact ((claim_C1 (fun _ => jwtSign ⟨1, "ana", none, "admin"⟩ "sec" 10) "sec" 5
      (some "Bearer tok")).2.2 "tok" (by rfl) (by decide) rfl (by decide)).1
  · exact ((claim_C1 (fun _ => jwtSign ⟨1, "ana", none, "admin"⟩ "sec" 10) "sec" 10
      (some "Bearer tok")).2.1 "tok" (by rfl) (by decide) (Or.inr (by decide))).1
  · exact ((claim_C1 (fun _ => jwtSign ⟨1, "ana", none, "admin"⟩ "other" 10) "sec" 5
      (some "Bearer tok")).2.1 "tok" (by rfl) (by decide) (Or.inl (by decide))).2
  · exact ((claim_C1 (fun _ => jwtSign ⟨1, "ana", none, "admin"⟩ "sec" 10) "sec" 5
      none).1 (Or.inl rfl)).1

/-- A generated order number is never the empty string. -/
theorem mkNumeroOrden_ne_empty (a b : Nat) : mkNumeroOrden a b ≠ "" := by
  intro h
  have h2 : ("ORD-" ++ toString a ++ "-" ++ toString b).data = ("" : String).data := by
    rw [← h]; rfl
  simp [String.data_append] at h2

/-- Claim C3: for every pair of customer registration requests sharing a
username or an email, if the first succeeds then the second fails with the
conflict 400 response and creates no customer row; a successful
registration stores a salted bcrypt hash of the password and the response
carries the public profile columns, a shape from which the hash is
structurally absent.  Both the server.js and the part_001 handler satisfy
this. -/
theorem claim_C3 :
    (∀ (db : List Cliente) (b1 b2 : RegistroBody) (u pw n e : String)
       (id1 salt1 now1 id2 salt2 now2 : Nat) (secret : String),
       b1.usuario = some u → b1.contrasena = some pw →
       b1.nombre = some n → b1.correo = some e →
       u ≠ "" → pw ≠ "" → n ≠ "" → e ≠ "" →
       (∀ c ∈ db, c.usuario ≠ u ∧ c.correo ≠ e) →
       jsTruthy b2.usuario = true → jsTruthy b2.contrasena = true →
       jsTruthy b2.nombre = true → jsTruthy b2.correo = true →
       (b2.usuario = some u ∨ b2.correo = some e) →
       ∃ row : Cliente,
         registroCliente db b1 id1 salt1 now1 secret
           = (db ++ [row],
              ⟨201, true, "Cliente registrado exitosamente",
               some (jwtSign ⟨id1, u, none, "cliente"⟩ secret (now1 + 86400),
                     row.public)⟩) ∧
         row.contrasena_hash = bcryptHash pw salt1 ∧
         registroCliente (db ++ [row]) b2 id2 salt2 now2 secret
           = (db ++ [row],
              ⟨400, false, "El usuario o correo ya están registrados", none⟩)) ∧
    (∀ (db : List Client) (b1 b2 : RegisterBody) (u pw n e : String)
       (id1 salt1 now1 id2 salt2 now2 : Nat),
       b1.username = some u → b1.password = some pw →
       b1.name = some n → b1.email = some e →
       u ≠ "" → pw ≠ "" → n ≠ "" → e ≠ "" →
       (∀ c ∈ db, c.username ≠ u ∧ c.email ≠ e) →
       jsTruthy b2.username = true → jsTruthy b2.password = true →
       jsTruthy b2.name = true → jsTruthy b2.email = true →
       (b2.username = some u ∨ b2.email = some e) →
       ∃ row : Client,
         registerClient db b1 id1 salt1 now1
           = (db ++ [row],
              ⟨201, true, "Cliente registrado exitosamente", some row.public⟩) ∧
         row.password_hash = bcryptHash pw salt1 ∧
         registerClient (db ++ [row]) b2 id2 salt2 now2
           = (db ++ [row],
              ⟨400, false, "El usuario o correo ya está registrado", none⟩)) := by
  constructor
  · intro db b1 b2 u pw n e id1 salt1 now1 id2 salt2 now2 secret
    intro h1 h2 h3 h4 hu hpw hn he hfresh hv1 hv2 hv3 hv4 hshare
    have hany : db.any (fun c => c.usuario == u || c.correo == e) = false := by
      simp only [List.any_eq_false]
      intro c hc
      rcases hfresh c hc with ⟨hcu, hce⟩
      simp [hcu, hce]
    refine ⟨⟨id1, u, bcryptHash pw salt1, n, e, jsOrNullStr b1.telefono,
      jsOrNullStr b1.direccion, jsOrNullStr b1.ciudad, jsOrNullStr b1.pais,
      true, "cliente", now1, none⟩, ?_, rfl, ?_⟩
    · simp [registroCliente, h1, h2, h3, h4, jsTruthy, hu, hpw, hn, he, hany]
    · rcases hv2' : b2.usuario with _ | u2
      · rw [hv2'] at hv1; simp [jsTruthy] at hv1
      rcases hv4' : b2.correo with _ | e2
      · rw [hv4'] at hv4; simp [jsTruthy] at hv4
      have hmatch : ((⟨id1, u, bcryptHash pw salt1, n, e, jsOrNullStr b1.telefono,
          jsOrNullStr b1.direccion, jsOrNullStr b1.ciudad, jsOrNullStr b1.pais,
          true, "cliente", now1, none⟩ : Cliente).usuario == u2 ||
          (⟨id1, u, bcryptHash pw salt1, n, e, jsOrNullStr b1.telefono,
          jsOrNullStr b1.direccion, jsOrNullStr b1.ciudad, jsOrNullStr b1.pais,
          true, "cliente", now1, none⟩ : Cliente).correo == e2) = true := by
        rcases hshare with hsh | hsh
        · rw [hv2'] at hsh; injection hsh with hsh
          simp [hsh]
        · rw [hv4'] at hsh; injection hsh with hsh
          simp [hsh]
      have hja : jsTruthy (some u2) = true := hv2' ▸ hv1
      have hjb : jsTruthy (some e2) = true := hv4' ▸ hv4
      simp [registroCliente, hv1, hv2, hv3, hv4, hv2', hv4', hja, hjb,
            List.any_append, hmatch]
  · intro db b1 b2 u pw n e id1 salt1 now1 id2 salt2 now2
    intro h1 h2 h3 h4 hu hpw hn he hfresh hv1 hv2 hv3 hv4 hshare
    have hany : db.any (fun c => c.username == u || c.email == e) = false := by
      simp only [List.any_eq_false]
      intro c hc
      rcases hfresh c hc with ⟨hcu, hce⟩
      simp [hcu, hce]
    refine ⟨⟨id1, u, bcryptHash pw salt1, n, e, jsOrNullStr b1.phone,
      "client", now1⟩, ?_, rfl, ?_⟩
    · simp [registerClient, h1, h2, h3, h4, jsTruthy, hu, hpw, hn, he, hany]
    · rcases hv2' : b2.username with _ | u2
      · rw [hv2'] at hv1; simp [jsTruthy] at hv1
      rcases hv4' : b2.email with _ | e2
      · rw [hv4'] at hv4; simp [jsTruthy] at hv4
      have hmatch : ((⟨id1, u, bcryptHash pw salt1, n, e, jsOrNullStr b1.phone,
          "client", now1⟩ : Client).username == u2 ||
          (⟨id1, u, bcryptHash pw salt1, n, e, jsOrNullStr b1.phone,
          "client", now1⟩ : Client).email == e2) = true := by
        rcases hshare with hsh | hsh
        · rw [hv2'] at hsh; injection hsh with hsh
          simp [hsh]
        · rw [hv4'] at hsh; injection hsh with hsh
          simp [hsh]
      have hja : jsTruthy (some u2) = true := hv2' ▸ hv1
      have hjb : jsTruthy (some e2) = true := hv4' ▸ hv4
      simp [registerClient, hv1, hv2, hv3, hv4, hv2', hv4', hja, hjb,
            List.any_append, hmatch]

/-- Witness for C3: a concrete first registration succeeds and stores the
hash, and a second request reusing the username is rejected with the
conflict response leaving the table unchanged. -/
theorem claim_C3_witness :
    ∃ row : Cliente,
      registroCliente []
          ⟨some "ana", some "pw1", some "Ana", some "a@x", none, none, none, none⟩
          7 3 100 "sec"
        = ([] ++ [row],
           ⟨201, true, "Cliente registrado exitosamente",
            some (jwtSign ⟨7, "ana", none, "cliente"⟩ "sec" (100 + 86400),
                  row.public)⟩) ∧
      row.contrasena_hash = bcryptHash "pw1" 3 ∧
      registroCliente ([] ++ [row])
          ⟨some "ana", some "pw2", some "Otra", some "b@y", none, none, none, none⟩
          8 4 200 "sec"
        = ([] ++ [row],
           ⟨400, false, "El usuario o correo ya están registrados", none⟩) :=
  claim_C3.1 [] _ _ "ana" "pw1" "Ana" "a@x" 7 3 100 8 4 200 "sec"
    rfl rfl rfl rfl (by decide) (by decide) (by decide) (by decide)
    (by simp) rfl rfl rfl rfl (Or.inl rfl)

/-- Claim C4: a sale request whose cart is missing, not an array or empty,
or whose total is missing or not positive, is rejected with 400 and no row
is created; otherwise exactly one row is created, its generated order
number is non-empty, and the response carries the new id, the order number
and the echoed total.  Both the server.js/part_000 handler and the
part_001 handler satisfy this. -/
theorem claim_C4 (db : List Venta) (dbE : List Sale) (b : VentaBody)
    (bE : SaleBody) (newId nowMs rand now : Nat) :
    ((b.datos_carrito = none ∨ b.datos_carrito = some .notArr ∨
      b.datos_carrito = some (.arr []) ∨ b.total = none ∨
      (∃ t, b.total = some t ∧ t ≤ 0)) →
      (ventasPost db b newId nowMs rand now).1 = db ∧
      (ventasPost db b newId nowMs rand now).2.status = 400) ∧
    (∀ items t, b.datos_carrito = some (.arr items) → items ≠ [] →
      b.total = some t → 0 < t →
      ∃ v : Venta,
        ventasPost db b newId nowMs rand now
          = (db ++ [v],
             ⟨201, true, "Venta registrada", some (newId, v.numero_orden, t)⟩) ∧
        v.numero_orden ≠ "") ∧
    ((bE.cart_data = none ∨ bE.cart_data = some .notArr ∨
      bE.cart_data = some (.arr []) ∨ bE.total = none ∨
      (∃ t, bE.total = some t ∧ t ≤ 0)) →
      (salesPost_part001 dbE bE newId nowMs rand now).1 = dbE ∧
      (salesPost_part001 dbE bE newId nowMs rand now).2.status = 400) ∧
    (∀ items t, bE.cart_data = some (.arr items) → items ≠ [] →
      bE.total = some t → 0 < t →
      ∃ v : Sale,
        salesPost_part001 dbE bE newId nowMs rand now
          = (dbE ++ [v],
             ⟨201, true, "Venta registrada", some (newId, v.order_number, t)⟩) ∧
        v.order_number ≠ "") := by
  refine ⟨?_, ?_, ?_, ?_⟩
  · rintro (h | h | h | h | ⟨t, ht, hle⟩)
    · simp [ventasPost, h]
    · simp [ventasPost, h]
    · simp [ventasPost, h]
    · rcases hc : b.datos_carrito with _ | cd
      · simp [ventasPost, hc]
      · cases cd with
        | notArr => simp [ventasPost, hc]
        | arr items =>
          rcases hi : items.isEmpty with _ | _
          · simp [ventasPost, hc, hi, h]
          · simp [ventasPost, hc, hi]
    · rcases hc : b.datos_carrito with _ | cd
      · simp [ventasPost, hc]
      · cases cd with
        | notArr => simp [ventasPost, hc]
        | arr items =>
          rcases hi : items.isEmpty with _ | _
          · simp [ventasPost, hc, hi, ht, hle]
          · simp [ventasPost, hc, hi]
  · intro items t hc hne ht hpos
    have hi : items.isEmpty = false := by
      simpa [List.isEmpty_iff] using hne
    refine ⟨⟨newId, mkNumeroOrden nowMs rand, none, items, t,
      jsOrStr b.nombre_cliente "Cliente", jsOrStr b.correo_cliente "",
      jsOrStr b.telefono_cliente "", none, "pendiente", none, none, now, now⟩,
      ?_, mkNumeroOrden_ne_empty nowMs rand⟩
    simp [ventasPost, hc, hi, ht, Int.not_le.mpr hpos]
  · rintro (h | h | h | h | ⟨t, ht, hle⟩)
    · simp [salesPost_part001, h]
    · simp [salesPost_part001, h]
    · simp [salesPost_part001, h]
    · rcases hc : bE.cart_data with _ | cd
      · simp [salesPost_part001, hc]
      · cases cd with
        | notArr => simp [salesPost_part001, hc]
        | arr items =>
          rcases hi : items.isEmpty with _ | _
          · simp [salesPost_part001, hc, hi, h]
          · simp [salesPost_part001, hc, hi]
    · rcases hc : bE.cart_data with _ | cd
      · simp [salesPost_part001, hc]
      · cases cd with
        | notArr => simp [salesPost_part001, hc]
        | arr items =>
          rcases hi : items.isEmpty with _ | _
          · simp [salesPost_part001, hc, hi, ht, hle]
          · simp [salesPost_part001, hc, hi]
  · intro items t hc hne ht hpos
    have hi : items.isEmpty = false := by
      simpa [List.isEmpty_iff] using hne
    refine ⟨⟨newId, mkNumeroOrden nowMs rand, items, t,
      jsOrStr bE.client_name "Cliente", jsOrStr bE.client_email "",
      jsOrStr bE.client_phone "", "pending", now⟩,
      ?_, mkNumeroOrden_ne_empty nowMs rand⟩
    simp [salesPost_part001, hc, hi, ht, Int.not_le.mpr hpos]

/-- Witness for C4: a concrete empty cart is rejected leaving the table
unchanged, and a concrete one-item cart with total 25 creates exactly one
row whose order number is non-empty. -/
theorem claim_C4_witness :
    ((ventasPost [] ⟨some (.arr []), some 25, none, none, none⟩ 1 1000 7 99).1 = [] ∧
     (ventasPost [] ⟨some (.arr []), some 25, none, none, none⟩ 1 1000 7 99).2.status = 400) ∧
    (∃ v : Venta,
      ventasPost [] ⟨some (.arr [⟨3, "Taza", 2⟩]), some 25, none, none, none⟩ 1 1000 7 99
        = ([] ++ [v], ⟨201, true, "Venta registrada", some (1, v.numero_orden, 25)⟩) ∧
      v.numero_orden ≠ "") :=
  ⟨(claim_C4 [] [] ⟨some (.arr []), some 25, none, none, none⟩
      ⟨none, none, none, none, none⟩ 1 1000 7 99).1
      (Or.inr (Or.inr (Or.inl rfl))),
   (claim_C4 [] [] ⟨some (.arr [⟨3, "Taza", 2⟩]), some 25, none, none, none⟩
      ⟨none, none, none, none, none⟩ 1 1000 7 99).2.1
      [⟨3, "Taza", 2⟩] 25 rfl (by decide) rfl (by decide)⟩

/-- Counterexample to claim C5 as stated: in the part_001 variant, a wrong
password against the existing account ana and the same wrong password
against the non-existent account bob produce different error messages, so
the pair of responses does not carry the same error message. -/
theorem claim_C5_counterexample :
    (clientsLogin [⟨1, "ana", bcryptHash "secreta" 3, "Ana", "a@x", none, "client", 50⟩]
        ⟨some "ana", some "wrong"⟩ 100 "sec").2.message = "Contraseña incorrecta" ∧
    (clientsLogin [⟨1, "ana", bcryptHash "secreta" 3, "Ana", "a@x", none, "client", 50⟩]
        ⟨some "bob", some "wrong"⟩ 100 "sec").2.message = "Usuario no encontrado" ∧
    ("Contraseña incorrecta" : String) ≠ "Usuario no encontrado" := by
  refine ⟨rfl, rfl, by decide⟩

/-- Claim C5 amended: in the server.js variant the wrong-password response
and the unknown-user response are identical (status 401, message
Credenciales inválidas), so the response does not reveal whether the
username existed; in the part_001 variant both responses carry status 401
but the messages differ (Contraseña incorrecta for a wrong password,
Usuario no encontrado for an unknown user), revealing whether the account
existed. -/
theorem claim_C5 :
    (∀ (db : List Cliente) (u u' pw : String) (now now' : Nat)
       (secret : String) (c : Cliente),
       u ≠ "" → u' ≠ "" → pw ≠ "" →
       db.find? (fun x => x.usuario == u && x.activo) = some c →
       bcryptCompare pw c.contrasena_hash = false →
       db.find? (fun x => x.usuario == u' && x.activo) = none →
       (clientesLogin db ⟨some u, some pw⟩ now secret).2
           = (clientesLogin db ⟨some u', some pw⟩ now' secret).2 ∧
       (clientesLogin db ⟨some u, some pw⟩ now secret).2
           = ⟨401, false, "Credenciales inválidas", none⟩) ∧
    (∀ (db : List Client) (u u' pw : String) (now now' : Nat)
       (secret : String) (c : Client),
       u ≠ "" → u' ≠ "" → pw ≠ "" →
       db.find? (fun x => x.username == u || x.email == u) = some c →
       bcryptCompare pw c.password_hash = false →
       db.find? (fun x => x.username == u' || x.email == u') = none →
       (clientsLogin db ⟨some u, some pw⟩ now secret).2.status = 401 ∧
       (clientsLogin db ⟨some u', some pw⟩ now' secret).2.status = 401 ∧
       (clientsLogin db ⟨some u, some pw⟩ now secret).2.message
           = "Contraseña incorrecta" ∧
       (clientsLogin db ⟨some u', some pw⟩ now' secret).2.message
           = "Usuario no encontrado") := by
  constructor
  · intro db u u' pw now now' secret c hu hu' hpw hfind hwrong hnone
    constructor <;>
      simp [clientesLogin, jsTruthy, hu, hu', hpw, hfind, hwrong, hnone]
  · intro db u u' pw now now' secret c hu hu' hpw hfind hwrong hnone
    refine ⟨?_, ?_, ?_, ?_⟩ <;>
      simp [clientsLogin, jsTruthy, hu, hu', hpw, hfind, hwrong, hnone]

/-- Witness for C5: concrete instances of both halves — the server.js
responses coincide, the part_001 messages are the two distinct literals. -/
theorem claim_C5_witness :
    ((clientesLogin [⟨1, "ana", bcryptHash "secreta" 3, "Ana", "a@x", none,
        none, none, none, true, "cliente", 50, none⟩]
        ⟨some "ana", some "wrong"⟩ 100 "sec").2
      = (clientesLogin [⟨1, "ana", bcryptHash "secreta" 3, "Ana", "a@x", none,
        none, none, none, true, "cliente", 50, none⟩]
        ⟨some "bob", some "wrong"⟩ 200 "sec").2 ∧
     (clientesLogin [⟨1, "ana", bcryptHash "secreta" 3, "Ana", "a@x", none,
        none, none, none, true, "cliente", 50, none⟩]
        ⟨some "ana", some "wrong"⟩ 100 "sec").2
      = ⟨401, false, "Credenciales inválidas", none⟩) ∧
    ((clientsLogin [⟨1, "ana", bcryptHash "secreta" 3, "Ana", "a@x", none, "client", 50⟩]
        ⟨some "ana", some "wrong"⟩ 100 "sec").2.status = 401 ∧
     (clientsLogin [⟨1, "ana", bcryptHash "secreta" 3, "Ana", "a@x", none, "client", 50⟩]
        ⟨some "bob", some "wrong"⟩ 200 "sec").2.status = 401 ∧
     (clientsLogin [⟨1, "ana", bcryptHash "secreta" 3, "Ana", "a@x", none, "client", 50⟩]
        ⟨some "ana", some "wrong"⟩ 100 "sec").2.message = "Contraseña incorrecta" ∧
     (clientsLogin [⟨1, "ana", bcryptHash "secreta" 3, "Ana", "a@x", none, "client", 50⟩]
        ⟨some "bob", some "wrong"⟩ 200 "sec").2.message = "Usuario no encontrado") :=
  ⟨claim_C5.1 [⟨1, "ana", bcryptHash "secreta" 3, "Ana", "a@x", none,
      none, none, none, true, "cliente", 50, none⟩]
      "ana" "bob" "wrong" 100 200 "sec"
      ⟨1, "ana", bcryptHash "secreta" 3, "Ana", "a@x", none,
        none, none, none, true, "cliente", 50, none⟩
      (by decide) (by decide) (by decide) rfl rfl rfl,
   claim_C5.2 [⟨1, "ana", bcryptHash "secreta" 3, "Ana", "a@x", none, "client", 50⟩]
      "ana" "bob" "wrong" 100 200 "sec"
      ⟨1, "ana", bcryptHash "secreta" 3, "Ana", "a@x", none, "client", 50⟩
      (by decide) (by decide) (by decide) rfl rfl rfl⟩

/-- Counterexample to claim C6 as stated: in the server.js variant the
public get-by-id endpoint returns an existing but inactive product with
status 200, not 404 — its query has no condition on estado. -/
theorem claim_C6_counterexample :
    productosGetById_serverjs
        [⟨1, "Vieja", none, none, 10, 0, none, none, 0, "INACTIVO", false, 5, 5⟩]
        [] [] 1
      = ⟨200, true, none,
         some ⟨⟨1, "Vieja", none, none, 10, 0, none, none, 0, "INACTIVO", false, 5, 5⟩,
               none, none⟩⟩ := by
  rfl

/-- Claim C6 amended: in the part_000 and part_001 variants the public
get-by-id endpoint answers 404 exactly when no product with the id exists
or the product is not active (lowercased status equal to activo); in the
server.js variant neither the public nor the admin endpoint filters on
estado, so both answer 404 exactly when no product with the id exists, and
in particular both return inactive products. -/
theorem claim_C6 (db : List Producto) (dbE : List Product)
    (cats : List Categoria) (subs : List Subcategoria)
    (catsE : List Category) (subsE : List Subcategory) (pid : Nat) :
    ((productosGetById_part000 db cats subs pid).status = 404 ↔
      ∀ p ∈ db, ¬(p.id = pid ∧ jsToLower p.estado = "activo")) ∧
    ((productsGetById_part001 dbE catsE subsE pid).status = 404 ↔
      ∀ p ∈ dbE, ¬(p.id = pid ∧ jsToLower p.status = "activo")) ∧
    ((productosGetById_serverjs db cats subs pid).status = 404 ↔
      ∀ p ∈ db, p.id ≠ pid) ∧
    ((adminProductosGetById_serverjs db cats subs pid).status = 404 ↔
      ∀ p ∈ db, p.id ≠ pid) := by
  refine ⟨?_, ?_, ?_, ?_⟩
  · rcases hf : db.find? (fun p => p.id == pid && jsToLower p.estado == "activo")
      with _ | p
    · simp only [productosGetById_part000, hf]
      simpa using List.find?_eq_none.mp hf
    · simp only [productosGetById_part000, hf]
      have hmem := List.mem_of_find?_eq_some hf
      have hpred := List.find?_some hf
      simp only [Bool.and_eq_true, beq_iff_eq] at hpred
      simp only [show (200 : Nat) ≠ 404 by decide, false_iff]
      intro hall
      exact hall p hmem ⟨hpred.1, hpred.2⟩
  · rcases hf : dbE.find? (fun p => p.id == pid && jsToLower p.status == "activo")
      with _ | p
    · simp only [productsGetById_part001, hf]
      simpa using List.find?_eq_none.mp hf
    · simp only [productsGetById_part001, hf]
      have hmem := List.mem_of_find?_eq_some hf
      have hpred := List.find?_some hf
      simp only [Bool.and_eq_true, beq_iff_eq] at hpred
      simp only [show (200 : Nat) ≠ 404 by decide, false_iff]
      intro hall
      exact hall p hmem ⟨hpred.1, hpred.2⟩
  · rcases hf : db.find? (fun p => p.id == pid) with _ | p
    · simp only [productosGetById_serverjs, hf]
      simpa using List.find?_eq_none.mp hf
    · simp only [productosGetById_serverjs, hf]
      have hmem := List.mem_of_find?_eq_some hf
      have hpred := List.find?_some hf
      simp only [beq_iff_eq] at hpred
      simp only [show (200 : Nat) ≠ 404 by decide, false_iff]
      intro hall
      exact hall p hmem hpred
  · rcases hf : db.find? (fun p => p.id == pid) with _ | p
    · simp only [adminProductosGetById_serverjs, hf]
      simpa using List.find?_eq_none.mp hf
    · simp only [adminProductosGetById_serverjs, hf]
      have hmem := List.mem_of_find?_eq_some hf
      have hpred := List.find?_some hf
      simp only [beq_iff_eq] at hpred
      simp only [show (200 : Nat) ≠ 404 by decide, false_iff]
      intro hall
      exact hall p hmem hpred

/-- Witness for C6: on a table holding only an inactive product with id 1,
the part_000 public endpoint answers 404 for id 1, while the server.js
public endpoint answers 404 only for the absent id 2 (for id 1 it serves
the inactive product, see the counterexample). -/
theorem claim_C6_witness :
    (productosGetById_part000
        [⟨1, "Vieja", none, none, 10, 0, none, none, 0, "INACTIVO", false, 5, 5⟩]
        [] [] 1).status = 404 ∧
    (productosGetById_serverjs
        [⟨1, "Vieja", none, none, 10, 0, none, none, 0, "INACTIVO", false, 5, 5⟩]
        [] [] 2).status = 404 :=
  ⟨(claim_C6 [⟨1, "Vieja", none, none, 10, 0, none, none, 0, "INACTIVO", false, 5, 5⟩]
      [] [] [] [] [] 1).1.mpr (by decide),
   (claim_C6 [⟨1, "Vieja", none, none, 10, 0, none, none, 0, "INACTIVO", false, 5, 5⟩]
      [] [] [] [] [] 2).2.2.1.mpr (by decide)⟩

/-- Counterexample to claim C7 as stated: in the part_001 variant a create
request carrying only name Widget and price 10 is rejected with 400
(category_id is also mandatory there) and no row is stored. -/
theorem claim_C7_counterexample :
    adminProductsPost_part001 []
        ⟨some "Widget", none, none, some 10, none, none, none, none, none, none⟩ 1 0
      = ([], ⟨400, false, some "Campos requeridos: name, category_id, price", none⟩) := by
  rfl

/-- Claim C7 amended: in the server.js variant, creating a product with
only a name and a price stores exactly one row whose stock is 0, whose
estado is ACTIVO and whose destacado flag is false; the part_001 variant
additionally requires category_id, rejecting a name-and-price-only request
with 400 and storing nothing, and with a category id supplied it stores
the same defaults (stock 0, status ACTIVO, featured false). -/
theorem claim_C7 :
    (∀ (db : List Producto) (nm : String) (pr : Int) (newId now : Nat),
      nm ≠ "" → pr ≠ 0 →
      adminProductosPost_serverjs db
          ⟨some nm, none, none, some pr, none, none, none, none, none, none⟩ newId now
        = (db ++ [⟨newId, nm, none, none, pr, 0, some "", none, 0, "ACTIVO", false, now, now⟩],
           ⟨201, true, "Producto creado exitosamente",
            some ⟨newId, nm, none, none, pr, 0, some "", none, 0, "ACTIVO", false, now, now⟩⟩)) ∧
    (∀ (db : List Product) (nm : String) (cat : Nat) (pr : Int) (newId now : Nat),
      nm ≠ "" → cat ≠ 0 → pr ≠ 0 →
      adminProductsPost_part001 db
          ⟨some nm, some cat, none, some pr, none, none, none, none, none, none⟩ newId now
        = (db ++ [⟨newId, nm, some cat, none, pr, 0, none, none, 0, "ACTIVO", false, now, now⟩],
           ⟨201, true, none,
            some ⟨newId, nm, some cat, none, pr, 0, none, none, 0, "ACTIVO", false, now, now⟩⟩)) ∧
    (∀ (db : List Product) (nm : String) (pr : Int) (newId now : Nat),
      adminProductsPost_part001 db
          ⟨some nm, none, none, some pr, none, none, none, none, none, none⟩ newId now
        = (db, ⟨400, false, some "Campos requeridos: name, category_id, price", none⟩)) := by
  refine ⟨?_, ?_, ?_⟩
  · intro db nm pr newId now hnm hpr
    simp [adminProductosPost_serverjs, jsTruthy, jsTruthyInt, hnm, hpr,
          jsOrNullNat, jsOrInt, jsOrStr, jsOrNullStr, jsOrBool]
  · intro db nm cat pr newId now hnm hcat hpr
    simp [adminProductsPost_part001, jsTruthy, jsTruthyNat, jsTruthyInt,
          hnm, hcat, hpr, jsOrNullNat, jsOrInt, jsOrStr, jsOrNullStr,
          jsOrBool, normalizeStatus]
  · intro db nm pr newId now
    simp [adminProductsPost_part001, jsTruthyNat]

/-- Witness for C7: the concrete server.js creation of Widget at price 10
stores the defaults, and the concrete part_001 creation with category 2
does as well. -/
theorem claim_C7_witness :
    adminProductosPost_serverjs []
        ⟨some "Widget", none, none, some 10, none, none, none, none, none, none⟩ 1 0
      = ([] ++ [⟨1, "Widget", none, none, 10, 0, some "", none, 0, "ACTIVO", false, 0, 0⟩],
         ⟨201, true, "Producto creado exitosamente",
          some ⟨1, "Widget", none, none, 10, 0, some "", none, 0, "ACTIVO", false, 0, 0⟩⟩) ∧
    adminProductsPost_part001 []
        ⟨some "Widget", some 2, none, some 10, none, none, none, none, none, none⟩ 1 0
      = ([] ++ [⟨1, "Widget", some 2, none, 10, 0, none, none, 0, "ACTIVO", false, 0, 0⟩],
         ⟨201, true, none,
          some ⟨1, "Widget", some 2, none, 10, 0, none, none, 0, "ACTIVO", false, 0, 0⟩⟩) :=
  ⟨claim_C7.1 [] "Widget" 10 1 0 (by decide) (by decide),
   claim_C7.2.1 [] "Widget" 2 10 1 0 (by decide) (by decide) (by decide)⟩

/-- Counterexample to claim C8 as stated: the server.js dashboard
top-products handler converts a database failure into a success response —
its catch block answers 200 with success true and an empty data array, and
the error message is not echoed. -/
theorem claim_C8_counterexample :
    topProducts_serverjs (.error "connection terminated unexpectedly")
      = ⟨200, true, none, none, some []⟩ := by
  rfl

/-- Claim C8 amended: on a database failure the ordinary endpoints (here
the public product listing of server.js and the part_001 top-products
endpoint) answer 500 and echo the raw underlying error message in the
body; the server.js dashboard top-products endpoint is an exception that
converts the failure into a 200 success response with an empty data array
(its top-categories and daily-sales neighbours share that catch shape). -/
theorem claim_C8 (e : String) :
    productosGet_serverjs (.error e)
      = ⟨500, false, some "Error obteniendo productos", some e, none⟩ ∧
    topProducts_part001 (.error e)
      = ⟨500, false, some "Error obteniendo top productos", some e, none⟩ ∧
    topProducts_serverjs (.error e)
      = ⟨200, true, none, none, some []⟩ :=
  ⟨rfl, rfl, rfl⟩

/-- Witness for C8: the concrete failure message db down is echoed with
500 by the product listing and by the part_001 top-products endpoint, and
swallowed into a 200 success by the server.js top-products endpoint. -/
theorem claim_C8_witness :
    productosGet_serverjs (.error "db down")
      = ⟨500, false, some "Error obteniendo productos", some "db down", none⟩ ∧
    topProducts_part001 (.error "db down")
      = ⟨500, false, some "Error obteniendo top productos", some "db down", none⟩ ∧
    topProducts_serverjs (.error "db down")
      = ⟨200, true, none, none, some []⟩ :=
  claim_C8 "db down"

/-- Claim C9: the part_000 admin sales listing builds its status filter by
interpolating the parameter counter without the dollar prefix, so the
statement text compares the estado column with the bare integer literal 1
and references only the $2 placeholder while two parameters are supplied;
the database rejects the statement and the handler answers 500 instead of
a filtered 200 — and in the part_001 variant the listing reads no status
filter at all, returning sales of every status (here a sale with status
enviado despite any requested filter value). -/
theorem claim_C9 :
    adminVentasQuery_part000 (some "pendiente") 50
      = ("SELECT * FROM ventas WHERE 1=1 AND estado = 1 ORDER BY fecha_creacion DESC LIMIT $2",
         [JsVal.str "pendiente", JsVal.num 50]) ∧
    countDollars
        "SELECT * FROM ventas WHERE 1=1 AND estado = 1 ORDER BY fecha_creacion DESC LIMIT $2"
      = 1 ∧
    adminVentasGet_part000 (pgExecModel ([] : List Venta)) (some "pendiente") 50
      = ⟨500, false, some "Error obteniendo ventas",
         some "bind message supplies parameters the statement does not use",
         none, none⟩ ∧
    adminSalesGet_part001 [⟨1, "ORD-1-1", [], 30, "Cliente", "", "", "enviado", 10⟩] 50
      = ⟨200, true, [⟨1, "ORD-1-1", [], 30, "Cliente", "", "", "enviado", 10⟩], 1⟩ := by
  refine ⟨rfl, rfl, rfl, rfl⟩

/-- The table produced by the server.js product update: the rows with the
requested id go through serverjsUpdateRow, the rest are untouched. -/
theorem adminProductosPut_serverjs_fst (db : List Producto) (pid : Nat)
    (b : ProductBodyS) (now : Nat) :
    (adminProductosPut_serverjs db pid b now).1
      = if db.any (fun p => p.id == pid) then serverjsUpdatedTable db pid b now
        else db := by
  unfold adminProductosPut_serverjs
  by_cases hany : (db.any fun p => p.id == pid) = true
  · rw [if_pos hany, if_pos hany]
    rcases hf : (serverjsUpdatedTable db pid b now).find? (fun p => p.id == pid)
      with _ | row
    · rw [hf]
    · rw [hf]
  · rw [if_neg hany, if_neg hany]

/-- Claim C10: in the server.js variant an admin product update whose body
explicitly supplies stock 0 leaves every stored stock unchanged — the
parameter array entry is parseInt(stock) || null, the zero is falsy and
becomes null, and COALESCE(null, stock) keeps the old column value. -/
theorem claim_C10 (db : List Producto) (pid : Nat) (b : ProductBodyS)
    (now : Nat) (h : b.stock = some 0) :
    (adminProductosPut_serverjs db pid b now).1.map (fun p => p.stock)
      = db.map (fun p => p.stock) := by
  rw [adminProductosPut_serverjs_fst]
  by_cases hany : (db.any fun p => p.id == pid) = true
  · rw [if_pos hany]
    unfold serverjsUpdatedTable
    rw [List.map_map]
    refine List.map_congr_left ?_
    intro p _
    by_cases hp : p.id = pid
    · simp [hp, serverjsUpdateRow, h, parseIntOrNull]
    · simp [hp]
  · rw [if_neg hany]

/-- Witness for C10: updating a product whose stock is 5 with a body whose
only field is stock 0 leaves the stored stock column at 5. -/
theorem claim_C10_witness :
    (adminProductosPut_serverjs
        [⟨1, "Taza", none, none, 30, 0, none, none, 5, "ACTIVO", false, 2, 2⟩] 1
        ⟨none, none, none, none, none, none, none, some 0, none, none⟩ 99).1.map
        (fun p => p.stock)
      = ([⟨1, "Taza", none, none, 30, 0, none, none, 5, "ACTIVO", false, 2, 2⟩] :
          List Producto).map (fun p => p.stock) :=
  claim_C10 [⟨1, "Taza", none, none, 30, 0, none, none, 5, "ACTIVO", false, 2, 2⟩]
    1 ⟨none, none, none, none, none, none, none, some 0, none, none⟩ 99 rfl

/-- Claim C2: the part_001 product update handler builds its SET clauses
by interpolating the parameter counter without the dollar prefix, so for
an update supplying only stock 5 the statement text reads
stock = 1, status = 2, ... WHERE id = 3 with zero placeholder references
while three parameter values are supplied; the database rejects the
statement, the handler answers 500, nothing is updated and the timestamp
is not refreshed — and the always-defined status ternary contributes a
status = ACTIVO entry even though the body omitted status. -/
theorem claim_C2 :
    updateQuery_part001
        ⟨none, none, none, none, none, none, none, some 5, none, none⟩ "7"
      = ("UPDATE products SET stock = 1, status = 2, updated_at = CURRENT_TIMESTAMP WHERE id = 3 RETURNING *",
         [JsVal.num 5, JsVal.str "ACTIVO", JsVal.str "7"]) ∧
    countDollars
        "UPDATE products SET stock = 1, status = 2, updated_at = CURRENT_TIMESTAMP WHERE id = 3 RETURNING *"
      = 0 ∧
    adminProductsPut_part001 (pgExecModel (([], []) : List Product × List Product))
        [⟨7, "Taza", some 1, none, 30, 0, none, none, 2, "inactive", false, 5, 5⟩]
        "7" ⟨none, none, none, none, none, none, none, some 5, none, none⟩
      = ([⟨7, "Taza", some 1, none, 30, 0, none, none, 2, "inactive", false, 5, 5⟩],
         ⟨500, false, some "Error actualizando producto",
          some "bind message supplies parameters the statement does not use", none⟩) ∧
    ("status", JsVal.str "ACTIVO") ∈ updateEntries_part001
        ⟨none, none, none, none, none, none, none, some 5, none, none⟩ := by
  refine ⟨rfl, rfl, rfl, by decide⟩

end ElChicho
